import Mathlib

/-!
Shallow embedding of the UI orchestration layer of miratope-rs
(`src/ui/mod.rs`): the cross-section state machine (`SectionState`), the
file-dialog mediator (`FileDialogState`, `file_dialog`), the per-button
command handlers of the `ui` system, and the change-driven update systems
(`update_cross_section`, `update_changed_polytopes`, `update_language`).

The shape-manipulation, geometry, naming and persistence collaborators are
not part of the embedded source; where a claim depends on one, it is
modelled from the spec (each such definition carries a doc comment starting
with "Modelled from the spec").  The crate's `Float` (an alias of `f64`) is
embedded as the exact rationals: every operation this layer performs on it
is field arithmetic and comparison, exact on the inputs the claims use.
-/

namespace Miratope

/-- The crate's scalar alias (`Float = f64`), embedded exactly. -/
abbrev Float := ℚ

/-- A filesystem path, as handed around by the dialog collaborator. -/
abbrev Path := String

/-- Modelled from the spec: the slicing hyperplane.  The UI layer only ever
builds `Hyperplane::x(dim, pos)`, the hyperplane orthogonal to the slicing
axis at coordinate `pos` in ambient dimension `dim` (§4.1, §6, glossary). -/
structure Hyperplane where
  dim : Nat
  pos : Float
deriving DecidableEq

/-- Modelled from the spec: the hyperplane's own affine subspace, the datum
`flatten_into` consumes (glossary: "the hyperplane's own coordinate
subspace"). -/
structure Subspace where
  dim : Nat
  pos : Float
deriving DecidableEq

/-- `Hyperplane::x(dim, pos)`. -/
def Hyperplane.x (d : Nat) (pos : Float) : Hyperplane := ⟨d, pos⟩

/-- The `subspace` field of a hyperplane. -/
def Hyperplane.subspace (h : Hyperplane) : Subspace := ⟨h.dim, h.pos⟩

namespace Point

/-- `Point::zeros(dim)`: the origin of the ambient space. -/
def zeros (d : Nat) : List Float := List.replicate d 0

end Point

/-- Modelled from the spec: orthogonal projection of a point onto the
x-hyperplane replaces the point's coordinate along the slicing axis with the
hyperplane's position. -/
def Hyperplane.project (h : Hyperplane) (v : List Float) : List Float :=
  match v with
  | [] => []
  | _ :: rest => h.pos :: rest

/-- Modelled from the spec: writing an ambient point of the x-hyperplane in
the coordinates of the hyperplane's own subspace drops the (now fixed)
coordinate along the slicing axis. -/
def Hyperplane.flatten (_h : Hyperplane) (v : List Float) : List Float :=
  v.drop 1

/-- Modelled from the spec: the shape-manipulation collaborators (§6) are
outside the embedded source, so shapes are embedded as the free algebra over
the opaque operations the UI layer invokes; `base` is a shape as loaded,
given by its display name, its dimension, and its vertex coordinates.  The
observations the UI layer makes of a shape (`dim`, `name`, `x_minmax`) are
defined below, following what the spec fixes about each operation. -/
inductive Concrete where
  | base (name : String) (dim : Option Nat) (vertices : List (List Float))
  | pyramid (p : Concrete)
  | prism (p : Concrete)
  | tegum (p : Concrete)
  | recenter (p : Concrete)
  | flatten (p : Concrete)
  | slice (p : Concrete) (h : Hyperplane)
  | flatten_into (p : Concrete) (s : Subspace)
  | recenter_with (p : Concrete) (q : List Float)
deriving DecidableEq

/-- The dimension observation: pyramids, prisms and tegums are one dimension
higher than their base (glossary), slicing stays in the ambient space, and
flattening (either form) collapses one dimension lower (§4.1, glossary);
recentering is a translation. -/
def Concrete.dim : Concrete → Option Nat
  | .base _ d _ => d
  | .pyramid p => p.dim.map (· + 1)
  | .prism p => p.dim.map (· + 1)
  | .tegum p => p.dim.map (· + 1)
  | .recenter p => p.dim
  | .flatten p => p.dim.map (· - 1)
  | .slice p _ => p.dim
  | .flatten_into p _ => p.dim.map (· - 1)
  | .recenter_with p _ => p.dim

/-- The display-name observation.  The claims only observe names of loaded
(`base`) shapes; derived shapes render by tagging the operation. -/
def Concrete.name : Concrete → String
  | .base n _ _ => n
  | .pyramid p => "pyramid of " ++ p.name
  | .prism p => "prism of " ++ p.name
  | .tegum p => "tegum of " ++ p.name
  | .recenter p => p.name
  | .flatten p => p.name
  | .slice p _ => "section of " ++ p.name
  | .flatten_into p _ => p.name
  | .recenter_with p _ => p.name

/-- Modelled from the spec: `x_minmax` reports the least and greatest
coordinate along the slicing axis over the shape's vertices, or nothing when
the shape has no vertices (§4.1: "range computed from the shape's bounding
extent along the slicing axis").  The claims only observe it on shapes given
by explicit vertices, so for derived shapes it is left unreported. -/
def Concrete.x_minmax : Concrete → Option (Float × Float)
  | .base _ _ verts =>
    match verts.filterMap List.head? with
    | [] => none
    | x :: xs => some (xs.foldl min x, xs.foldl max x)
  | _ => none

/-- The state of the cross-section view (`SectionState`). -/
inductive SectionState where
  | Active (original_polytope : Concrete) (minmax : Float × Float)
      (hyperplane_pos : Float) (flatten : Bool)
  | Inactive
deriving DecidableEq

/-- `SectionState::reset`. -/
def SectionState.reset : SectionState → SectionState
  | _ => .Inactive

/-- `SectionState::set_pos`: writes the hyperplane position when active,
no-op when inactive. -/
def SectionState.set_pos : SectionState → Float → SectionState
  | .Active o mm _ fl, pos => .Active o mm pos fl
  | .Inactive, _ => .Inactive

/-- `SectionState::set_flat`: writes the flatten flag when active, no-op
when inactive. -/
def SectionState.set_flat : SectionState → Bool → SectionState
  | .Active o mm hp _, flat => .Active o mm hp flat
  | .Inactive, _ => .Inactive

/-- `FileDialogMode`. -/
inductive FileDialogMode where
  | Disabled
  | Open
  | Save
deriving DecidableEq

/-- `FileDialogState`: the single-slot pending dialog request. -/
structure FileDialogState where
  mode : FileDialogMode := .Disabled
  name : Option String := none
deriving DecidableEq

/-- `FileDialogState::open`. -/
def FileDialogState.open' (s : FileDialogState) : FileDialogState :=
  { s with mode := .Open }

/-- `FileDialogState::save`. -/
def FileDialogState.save (s : FileDialogState) (name : String) : FileDialogState :=
  { s with mode := .Save, name := some name }

/-- Modelled from the spec: the process-wide language selection (§3); all
the claims observe of it is the naming collaborator below. -/
inductive SelectedLanguage where
  | en
deriving DecidableEq

/-- Modelled from the spec: the naming collaborator's plain rendering of a
shape's display name in the selected language (§6 `render_title`); the
English rendering is the stored name itself. -/
def SelectedLanguage.parse (_l : SelectedLanguage) (name : String) : String :=
  name

/-- Capitalizes the first character of a string. -/
def upperFirst (s : String) : String :=
  match s.data with
  | [] => s
  | c :: cs => String.mk (c.toUpper :: cs)

/-- Modelled from the spec and the collaborator's own name: the uppercased
variant of the rendering, capitalizing the first character of the plain
rendering. -/
def SelectedLanguage.parse_uppercase (l : SelectedLanguage) (name : String) : String :=
  upperFirst (l.parse name)

/-- The per-frame world the UI systems read and write: the single live
shape, the cross-section controller, the dialog request slot together with
its version counter (the explicit monotonic counter of §9, standing in for
the framework's per-resource change detection), the language selection, and
the printed message channel. -/
structure World where
  shape : Concrete
  sectionState : SectionState
  dialog : FileDialogState
  dialogVersion : Nat
  language : SelectedLanguage
  messages : List String
deriving DecidableEq

namespace Ui

/-- The File ▸ Open button: issues an open request. -/
def openClick (w : World) : World :=
  { w with dialog := w.dialog.open', dialogVersion := w.dialogVersion + 1 }

/-- The File ▸ Save button: issues a save request whose suggested file name
is the uppercased rendering of the live shape's name. -/
def saveClick (w : World) : World :=
  { w with dialog := w.dialog.save (w.language.parse_uppercase w.shape.name),
           dialogVersion := w.dialogVersion + 1 }

/-- The Dual button.  `res` is the outcome of the `dual_mut` collaborator
call: `Except.ok` carries the shape as mutated into its dual, `Except.error`
the index of the facet whose hyperplane passes through the inversion center
(in which case the shape is left untouched, §4.2/§6).  The section state is
reset on either outcome. -/
def dualClick (res : Except Nat Concrete) (w : World) : World :=
  match res with
  | .ok d =>
    { w with shape := d, sectionState := w.sectionState.reset,
             messages := w.messages ++ ["Dual succeeded."] }
  | .error idx =>
    { w with sectionState := w.sectionState.reset,
             messages := w.messages ++
               ["Dual failed: Facet " ++ toString idx ++
                 " passes through inversion center."] }

/-- The Pyramid button: replaces the shape with its pyramid and resets the
section state. -/
def pyramidClick (w : World) : World :=
  { w with shape := w.shape.pyramid, sectionState := w.sectionState.reset }

/-- The Prism button: replaces the shape with its prism and resets the
section state. -/
def prismClick (w : World) : World :=
  { w with shape := w.shape.prism, sectionState := w.sectionState.reset }

/-- The Tegum button: replaces the shape with its tegum; the section state
is left untouched. -/
def tegumClick (w : World) : World :=
  { w with shape := w.shape.tegum }

/-- The Recenter button: recenters the shape and resets the section state. -/
def recenterClick (w : World) : World :=
  { w with shape := w.shape.recenter, sectionState := w.sectionState.reset }

/-- The Cross-section toggle: an active view is dismissed; an inactive one
activates on a clone of the live shape, with range `x_minmax` (defaulting to
`(-1, 1)`), position the midpoint of the range, and flattening off. -/
def crossSectionClick (w : World) : World :=
  match w.sectionState with
  | .Active _ _ _ _ => { w with sectionState := .Inactive }
  | .Inactive =>
    let p := w.shape
    let minmax := p.x_minmax.getD (-1, 1)
    { w with sectionState :=
        .Active p minmax ((minmax.1 + minmax.2) / 2) false }

/-- The Facet button.  `res` is the outcome of the `facet(0)` collaborator
call; on success the facet is flattened, recentered and made the live
shape.  The section state is reset on either outcome. -/
def facetClick (res : Option Concrete) (w : World) : World :=
  match res with
  | some f =>
    { w with shape := f.flatten.recenter, sectionState := w.sectionState.reset,
             messages := w.messages ++ ["Facet", "Facet succeeded."] }
  | none =>
    { w with sectionState := w.sectionState.reset,
             messages := w.messages ++ ["Facet", "Facet failed."] }

/-- The Verf button, the analogue of `facetClick` for `verf(0)`. -/
def verfClick (res : Option Concrete) (w : World) : World :=
  match res with
  | some v =>
    { w with shape := v.flatten.recenter, sectionState := w.sectionState.reset,
             messages := w.messages ++ ["Verf", "Verf succeeded."] }
  | none =>
    { w with sectionState := w.sectionState.reset,
             messages := w.messages ++ ["Verf", "Verf failed."] }

/-- The "Make main" button of the cross-section settings: resets the
section state, keeping the live shape (the last resolved slice). -/
def makeMainClick (w : World) : World :=
  { w with sectionState := w.sectionState.reset }

/-- The slice-depth slider: commits the dragged value when it differs from
the committed one; only shown while active. -/
def sliderDrag (newPos : Float) (w : World) : World :=
  match w.sectionState with
  | .Active _ _ hp _ =>
    if hp ≠ newPos then { w with sectionState := w.sectionState.set_pos newPos } else w
  | .Inactive => w

/-- The Flatten checkbox: commits the toggled value when it differs from the
committed one; only shown while active. -/
def flattenToggle (newFlat : Bool) (w : World) : World :=
  match w.sectionState with
  | .Active _ _ _ fl =>
    if fl ≠ newFlat then { w with sectionState := w.sectionState.set_flat newFlat } else w
  | .Inactive => w

/-- The library side panel choosing file `f`; `parseFile` is the outcome of
the `Concrete::from_path` collaborator.  A successful parse replaces the
live shape and resets the section state; a failed one reports and leaves
both untouched. -/
def libraryOpen (parseFile : Path → Except String Concrete) (f : Path)
    (w : World) : World :=
  match parseFile f with
  | .ok q => { w with shape := q, sectionState := w.sectionState.reset }
  | .error _ => { w with messages := w.messages ++ ["File open failed!"] }

end Ui

/-- The result of running a system that may `unwrap` a failed `Result`:
either the updated world (paired here with the list of file paths written),
or a process abort with the unwrapped error. -/
inductive RunResult (α : Type) where
  | ok (a : α)
  | fatal (msg : String)
deriving DecidableEq

/-- The `file_dialog` system.  `pick` is the blocking dialog collaborator's
outcome (`none` is cancellation), `parseFile` the `Concrete::from_path`
collaborator, `writeFile` the filesystem-write outcome; `lastSeen` is the
dialog version this system observed on its previous run, so
`lastSeen < w.dialogVersion` is exactly its `is_changed` gate.  Note that
the system never writes the dialog slot itself.  A save failure and an
open-parse failure are both unwrapped. -/
def file_dialog (pick : Option Path) (parseFile : Path → Except String Concrete)
    (writeFile : Path → Except String Unit) (lastSeen : Nat) (w : World) :
    RunResult (World × List Path) :=
  if lastSeen < w.dialogVersion then
    match w.dialog.mode with
    | .Save =>
      match w.dialog.name with
      | none => .fatal "no suggested file name"
      | some _ =>
        match pick with
        | some path =>
          match writeFile path with
          | .ok _ => .ok (w, [path])
          | .error e => .fatal e
        | none => .ok (w, [])
    | .Open =>
      match pick with
      | some path =>
        match parseFile path with
        | .ok q => .ok ({ w with shape := q.recenter, sectionState := w.sectionState.reset }, [])
        | .error e => .fatal e
      | none => .ok (w, [])
    | .Disabled => .ok (w, [])
  else .ok (w, [])

/-- The `update_cross_section` system; `sectionChanged` is its `is_changed`
gate on the section state.  While active it replaces the live shape with the
slice of the frozen snapshot at the committed position plus the fixed
epsilon `0.0000001`, flattening and recentering when requested; while
inactive (or when the snapshot reports no dimension) it is a no-op. -/
def update_cross_section (sectionChanged : Bool) (w : World) : World :=
  if sectionChanged then
    match w.sectionState with
    | .Active orig _ hpos fl =>
      let r := orig
      let hyp_pos := hpos + 1 / 10000000
      match r.dim with
      | some d =>
        let hyperplane := Hyperplane.x d hyp_pos
        let slice0 := r.slice hyperplane
        let slice1 :=
          if fl then
            (slice0.flatten_into hyperplane.subspace).recenter_with
              (hyperplane.flatten (hyperplane.project (Point.zeros d)))
          else slice0
        { w with shape := slice1 }
      | none => w
    | .Inactive => w
  else w

/-- The window title written by `update_changed_polytopes` when the shape's
changed-marker advanced: the uppercased rendering of the current name in the
current language. -/
def update_changed_polytopes_title (w : World) : String :=
  w.language.parse_uppercase w.shape.name

/-- The window title written by `update_language` when the language
selection changed: the plain rendering of the current name in the current
language. -/
def update_language_title (w : World) : String :=
  w.language.parse w.shape.name

/-- A square, a sample loaded shape. -/
def square : Concrete :=
  .base "square" (some 2) [[-1, -1], [1, -1], [-1, 1], [1, 1]]

/-- A sample shape of extent `(-2, 3)` along the slicing axis. -/
def wideShape : Concrete :=
  .base "wide" (some 3) [[-2, 0, 0], [3, 0, 0]]

/-- The nullitope: no vertices, no dimension, no reportable extent. -/
def nullShape : Concrete := .base "nullitope" none []

/-- A dyad lying inside the hyperplane of the slicing axis: it has vertices,
and zero extent along the slicing axis. -/
def flatDyad : Concrete := .base "dyad" (some 2) [[0, 0], [0, 1]]

/-- A four-dimensional sample shape. -/
def tesseract : Concrete := .base "tesseract" (some 4) []

/-- A world whose cross-section view is active on the square. -/
def activeSquareWorld : World :=
  { shape := square, sectionState := .Active square (-1, 1) 0 false,
    dialog := {}, dialogVersion := 0, language := .en, messages := [] }

/-- A world holding the wide shape, cross-section inactive. -/
def wideWorld : World :=
  { shape := wideShape, sectionState := .Inactive,
    dialog := {}, dialogVersion := 0, language := .en, messages := [] }

/-- A world holding the nullitope, cross-section inactive. -/
def nullWorld : World :=
  { shape := nullShape, sectionState := .Inactive,
    dialog := {}, dialogVersion := 0, language := .en, messages := [] }

/-- A world holding the flat dyad, cross-section inactive. -/
def dyadWorld : World :=
  { shape := flatDyad, sectionState := .Inactive,
    dialog := {}, dialogVersion := 0, language := .en, messages := [] }

/-- A world with a freshly issued open request. -/
def openReqWorld : World :=
  { shape := square, sectionState := .Active square (-1, 1) 0 false,
    dialog := { mode := .Open, name := none }, dialogVersion := 1,
    language := .en, messages := [] }

/-- A world with a freshly issued save request. -/
def saveReqWorld : World :=
  { shape := square, sectionState := .Inactive,
    dialog := { mode := .Save, name := some "Square" }, dialogVersion := 1,
    language := .en, messages := [] }

/-- A world whose cross-section view is active on the tesseract with
flattening requested. -/
def tesseractSectionWorld : World :=
  { shape := square, sectionState := .Active tesseract (0, 1) (1 / 2) true,
    dialog := {}, dialogVersion := 0, language := .en, messages := [] }

/-- A world holding a cube, used to compare the two title rules. -/
def cubeWorld : World :=
  { shape := .base "cube" (some 3) [[0, 0, 0]], sectionState := .Inactive,
    dialog := {}, dialogVersion := 0, language := .en, messages := [] }

/-- Whether an active range is non-degenerate; trivially true when
inactive. -/
def SectionState.rangeOk : SectionState → Bool
  | .Active _ mm _ _ => mm.1 < mm.2
  | .Inactive => true

/-- Claim C4: activating the cross-section while inactive stores a snapshot
of the live shape as `original_polytope`, takes the reported extent along
the slicing axis as the slider range, sets the position to the midpoint of
that range, and starts with flattening off; the live shape itself is
untouched. -/
theorem cross_section_activation (w : World) (a b : Float)
    (hs : w.sectionState = SectionState.Inactive)
    (hx : w.shape.x_minmax = some (a, b)) :
    (Ui.crossSectionClick w).sectionState =
      SectionState.Active w.shape (a, b) ((a + b) / 2) false ∧
    (Ui.crossSectionClick w).shape = w.shape := by
  unfold Ui.crossSectionClick
  rw [hs]
  simp [hx]

/-- Witness for C4 at a shape of extent `(-2, 3)` along the slicing axis:
the range is `(-2, 3)` and the initial position is `1/2`. -/
theorem cross_section_activation_witness :
    wideWorld.sectionState = SectionState.Inactive ∧
    wideWorld.shape.x_minmax = some (-2, 3) ∧
    (Ui.crossSectionClick wideWorld).sectionState =
      SectionState.Active wideShape (-2, 3) (1 / 2) false := by
  refine ⟨rfl, by decide, ?_⟩
  have h := (cross_section_activation wideWorld (-2) 3 rfl (by decide)).1
  rw [h]
  norm_num [wideWorld, wideShape]

/-- Claim C6 counterexample: activating on the nullitope, which cannot
report an extent, does not end the pass `Inactive` — the controller
activates with the default range. -/
theorem no_extent_activates_cex :
    (Ui.crossSectionClick nullWorld).sectionState =
      SectionState.Active nullShape (-1, 1) 0 false ∧
    (Ui.crossSectionClick nullWorld).sectionState ≠ SectionState.Inactive := by
  constructor
  · simp [Ui.crossSectionClick, nullWorld, nullShape, Concrete.x_minmax]
  · simp [Ui.crossSectionClick, nullWorld, nullShape, Concrete.x_minmax]

/-- Claim C6 amended: when the shape reports no extent along the slicing
axis, activation substitutes the default range `(-1, 1)`, position `0` and
flattening off, and still transitions to `Active`; it never falls back to
`Inactive`. -/
theorem no_extent_activation_defaults (w : World)
    (hs : w.sectionState = SectionState.Inactive)
    (hx : w.shape.x_minmax = none) :
    (Ui.crossSectionClick w).sectionState =
      SectionState.Active w.shape (-1, 1) 0 false := by
  unfold Ui.crossSectionClick
  rw [hs]
  simp [hx]

/-- Witness for the amended C6 at the nullitope. -/
theorem no_extent_activation_defaults_witness :
    nullWorld.sectionState = SectionState.Inactive ∧
    nullShape.x_minmax = none ∧
    (Ui.crossSectionClick nullWorld).sectionState =
      SectionState.Active nullShape (-1, 1) 0 false :=
  ⟨rfl, rfl, no_extent_activation_defaults nullWorld rfl rfl⟩

/-- Claim C7 counterexample: the flat dyad has vertices and zero extent
along the slicing axis, and activation produces an `Active` state with the
degenerate range `(0, 0)` — not a non-degenerate fallback. -/
theorem zero_extent_degenerate_range_cex :
    (Ui.crossSectionClick dyadWorld).sectionState =
      SectionState.Active flatDyad (0, 0) 0 false ∧
    (Ui.crossSectionClick dyadWorld).sectionState.rangeOk = false := by
  constructor
  · simp [Ui.crossSectionClick, dyadWorld, flatDyad, Concrete.x_minmax]
  · simp [Ui.crossSectionClick, dyadWorld, flatDyad, Concrete.x_minmax,
      SectionState.rangeOk]

/-- Claim C7 amended: activation never panics, but the fallback `(-1, 1)`
applies only when no extent is reported at all; the activated range is
non-degenerate whenever the reported extent is absent or itself
non-degenerate.  A zero-extent shape with vertices reports a degenerate
extent and yields a degenerate active range. -/
theorem activation_range_nondegenerate (w : World)
    (hx : w.shape.x_minmax = none ∨
      ∃ a b : Float, w.shape.x_minmax = some (a, b) ∧ a < b) :
    (Ui.crossSectionClick w).sectionState.rangeOk = true := by
  unfold Ui.crossSectionClick
  cases hsec : w.sectionState with
  | Active o mm hp fl => simp [SectionState.rangeOk]
  | Inactive =>
    rcases hx with hmm | ⟨a, b, hmm, hab⟩
    · simp [hmm, SectionState.rangeOk]
    · simp [hmm, SectionState.rangeOk, hab]

/-- Witness for the amended C7 at a shape of extent `(-2, 3)`. -/
theorem activation_range_nondegenerate_witness :
    (Ui.crossSectionClick wideWorld).sectionState.rangeOk = true :=
  activation_range_nondegenerate wideWorld
    (Or.inr ⟨-2, 3, by decide, by norm_num⟩)

/-- Claim C10: deactivating the cross-section — by the toggle while active,
by "Make main", or by `SectionState::reset` itself — writes only the
section state, which becomes `Inactive`; the live shape (the last resolved
slice) and the dialog slot are untouched, and the frozen snapshot is simply
discarded rather than restored into the live shape. -/
theorem deactivation_writes_only_section (w : World) (o : Concrete)
    (mm : Float × Float) (hp : Float) (fl : Bool)
    (hs : w.sectionState = SectionState.Active o mm hp fl) :
    (Ui.crossSectionClick w).sectionState = SectionState.Inactive ∧
    (Ui.crossSectionClick w).shape = w.shape ∧
    (Ui.crossSectionClick w).dialog = w.dialog ∧
    (Ui.makeMainClick w).sectionState = SectionState.Inactive ∧
    (Ui.makeMainClick w).shape = w.shape ∧
    (∀ s : SectionState, s.reset = SectionState.Inactive) := by
  unfold Ui.crossSectionClick Ui.makeMainClick
  rw [hs]
  simp [SectionState.reset]

/-- Witness for C10 at a world whose section view is active on the square. -/
theorem deactivation_writes_only_section_witness :
    (Ui.crossSectionClick activeSquareWorld).sectionState = SectionState.Inactive ∧
    (Ui.crossSectionClick activeSquareWorld).shape = activeSquareWorld.shape ∧
    (Ui.crossSectionClick activeSquareWorld).dialog = activeSquareWorld.dialog ∧
    (Ui.makeMainClick activeSquareWorld).sectionState = SectionState.Inactive ∧
    (Ui.makeMainClick activeSquareWorld).shape = activeSquareWorld.shape ∧
    (∀ s : SectionState, s.reset = SectionState.Inactive) :=
  deactivation_writes_only_section activeSquareWorld square (-1, 1) 0 false rfl

/-- Claim C1 counterexample: with the cross-section active, clicking
Recenter does not leave the section state unchanged — it resets the
controller. -/
theorem recenter_resets_section_cex :
    (Ui.recenterClick activeSquareWorld).sectionState = SectionState.Inactive ∧
    activeSquareWorld.sectionState ≠ SectionState.Inactive :=
  ⟨rfl, by simp [activeSquareWorld]⟩

/-- Claim C1 amended: applied while the cross-section controller is active,
dual, pyramid, prism, facet, verf, recenter, and a successful file load
each leave the controller `Inactive` after the pass; only tegum leaves the
section state unchanged (still active with the same snapshot). -/
theorem topological_ops_reset_section (w : World) (o : Concrete)
    (mm : Float × Float) (hp : Float) (fl : Bool)
    (res : Except Nat Concrete) (fres vres : Option Concrete)
    (parseFile : Path → Except String Concrete) (f : Path) (q : Concrete)
    (hs : w.sectionState = SectionState.Active o mm hp fl)
    (hq : parseFile f = Except.ok q) :
    (Ui.dualClick res w).sectionState = SectionState.Inactive ∧
    (Ui.pyramidClick w).sectionState = SectionState.Inactive ∧
    (Ui.prismClick w).sectionState = SectionState.Inactive ∧
    (Ui.facetClick fres w).sectionState = SectionState.Inactive ∧
    (Ui.verfClick vres w).sectionState = SectionState.Inactive ∧
    (Ui.recenterClick w).sectionState = SectionState.Inactive ∧
    (Ui.libraryOpen parseFile f w).sectionState = SectionState.Inactive ∧
    (Ui.tegumClick w).sectionState = SectionState.Active o mm hp fl := by
  refine ⟨?_, rfl, rfl, ?_, ?_, rfl, ?_, ?_⟩
  · cases res <;> rfl
  · cases fres <;> rfl
  · cases vres <;> rfl
  · simp [Ui.libraryOpen, hq, SectionState.reset]
  · simpa [Ui.tegumClick] using hs

/-- Witness for the amended C1 with the section active on the square. -/
theorem topological_ops_reset_section_witness :
    (Ui.dualClick (Except.error 0) activeSquareWorld).sectionState = SectionState.Inactive ∧
    (Ui.pyramidClick activeSquareWorld).sectionState = SectionState.Inactive ∧
    (Ui.prismClick activeSquareWorld).sectionState = SectionState.Inactive ∧
    (Ui.facetClick none activeSquareWorld).sectionState = SectionState.Inactive ∧
    (Ui.verfClick none activeSquareWorld).sectionState = SectionState.Inactive ∧
    (Ui.recenterClick activeSquareWorld).sectionState = SectionState.Inactive ∧
    (Ui.libraryOpen (fun _ => Except.ok square) "square.off"
      activeSquareWorld).sectionState = SectionState.Inactive ∧
    (Ui.tegumClick activeSquareWorld).sectionState =
      SectionState.Active square (-1, 1) 0 false :=
  topological_ops_reset_section activeSquareWorld square (-1, 1) 0 false
    (Except.error 0) none none (fun _ => Except.ok square) "square.off" square
    rfl rfl

/-- Claim C5 counterexample: a failed dual applied with the cross-section
active leaves the live shape untouched, but does not leave the section
state exactly as it was — the controller is reset to `Inactive`. -/
theorem dual_failure_resets_section_cex :
    (Ui.dualClick (Except.error 7) activeSquareWorld).shape =
      activeSquareWorld.shape ∧
    (Ui.dualClick (Except.error 7) activeSquareWorld).sectionState ≠
      activeSquareWorld.sectionState :=
  ⟨rfl, by simp [Ui.dualClick, activeSquareWorld, SectionState.reset]⟩

/-- Claim C5 amended: when dual, facet or verf fails, the failure reason is
reported (the offending facet index for dual) and the live shape is left
exactly as before the attempt — but the section state is not: the handlers
reset it to `Inactive` on failure just as on success. -/
theorem fallible_ops_failure_behavior (w : World) (idx : Nat) :
    (Ui.dualClick (Except.error idx) w).shape = w.shape ∧
    (Ui.dualClick (Except.error idx) w).messages =
      w.messages ++
        ["Dual failed: Facet " ++ toString idx ++
          " passes through inversion center."] ∧
    (Ui.dualClick (Except.error idx) w).sectionState = SectionState.Inactive ∧
    (Ui.facetClick none w).shape = w.shape ∧
    (Ui.facetClick none w).messages = w.messages ++ ["Facet", "Facet failed."] ∧
    (Ui.facetClick none w).sectionState = SectionState.Inactive ∧
    (Ui.verfClick none w).shape = w.shape ∧
    (Ui.verfClick none w).messages = w.messages ++ ["Verf", "Verf failed."] ∧
    (Ui.verfClick none w).sectionState = SectionState.Inactive :=
  ⟨rfl, rfl, rfl, rfl, rfl, rfl, rfl, rfl, rfl⟩

/-- Claim C9 counterexample: on a shape named "cube" the shape-changed
title rule writes "Cube" while the language-changed rule writes "cube" —
the two rules do not implement one and the same title computation. -/
theorem title_rules_differ_cex :
    update_changed_polytopes_title cubeWorld = "Cube" ∧
    update_language_title cubeWorld = "cube" ∧
    update_changed_polytopes_title cubeWorld ≠ update_language_title cubeWorld :=
  ⟨by decide, by decide, by decide⟩

/-- Claim C9 amended: both title rules apply the naming collaborator to the
current shape name and current language, but the shape-changed rule writes
the uppercased rendering while the language-changed rule writes the plain
rendering; the two titles agree exactly when capitalizing the first
character of the plain rendering leaves it unchanged. -/
theorem title_rules_capitalization (w : World) :
    update_changed_polytopes_title w = upperFirst (update_language_title w) ∧
    (update_changed_polytopes_title w = update_language_title w ↔
      upperFirst (w.language.parse w.shape.name) = w.language.parse w.shape.name) :=
  ⟨rfl, Iff.rfl⟩

/-- The world after `file_dialog` consumes the completed open request of
`openReqWorld` choosing `square.off`. -/
def postOpenWorld : World :=
  { openReqWorld with shape := square.recenter, sectionState := .Inactive }

/-- Claim C2: the claim states the intended (and spec-mandated) behavior,
and the library open path implements it, but the dialog paths do not: a
chosen open path whose parse fails, and a completed save whose write fails,
are both unwrapped, aborting the pass fatally instead of reporting.  The
library path, by contrast, reports and retains shape and section state. -/
theorem file_dialog_unwraps_failures :
    file_dialog (some "bad.off") (fun _ => Except.error "OFF parse failed")
      (fun _ => Except.ok ()) 0 openReqWorld =
      RunResult.fatal "OFF parse failed" ∧
    file_dialog (some "out.off") (fun _ => Except.ok square)
      (fun _ => Except.error "write failed") 0 saveReqWorld =
      RunResult.fatal "write failed" ∧
    Ui.libraryOpen (fun _ => Except.error "OFF parse failed") "bad.off"
      activeSquareWorld =
      { activeSquareWorld with
          messages := activeSquareWorld.messages ++ ["File open failed!"] } :=
  ⟨rfl, rfl, rfl⟩

/-- Claim C3 counterexample: a pass that consumes a completed open result
leaves the request slot still set to `Open` — the slot is not cleared after
being read (replay is instead prevented by the change-detection gate). -/
theorem dialog_slot_not_cleared_cex :
    file_dialog (some "square.off") (fun _ => Except.ok square)
      (fun _ => Except.ok ()) 0 openReqWorld =
      RunResult.ok (postOpenWorld, []) ∧
    postOpenWorld.dialog.mode = FileDialogMode.Open ∧
    postOpenWorld.dialog.mode ≠ FileDialogMode.Disabled :=
  ⟨rfl, rfl, by decide⟩

/-- Claim C3 amended: the dialog request slot is never cleared after being
read; at-most-once consumption is instead enforced by the change-detection
gate.  Any completed `file_dialog` pass leaves the dialog slot and its
version untouched, and a later pass that has observed that version, with no
new request issued in between, performs no load and no save. -/
theorem dialog_at_most_once (pick pick2 : Option Path)
    (pf pf2 : Path → Except String Concrete)
    (wr wr2 : Path → Except String Unit) (ls : Nat) (w w1 : World)
    (writes1 : List Path)
    (hrun : file_dialog pick pf wr ls w = RunResult.ok (w1, writes1)) :
    w1.dialog = w.dialog ∧ w1.dialogVersion = w.dialogVersion ∧
    file_dialog pick2 pf2 wr2 w.dialogVersion w1 = RunResult.ok (w1, []) := by
  have hpres : w1.dialog = w.dialog ∧ w1.dialogVersion = w.dialogVersion := by
    unfold file_dialog at hrun
    repeat' split at hrun
    all_goals simp at hrun
    all_goals obtain ⟨hw, -⟩ := hrun
    all_goals subst hw
    all_goals exact ⟨rfl, rfl⟩
  obtain ⟨hd, hv⟩ := hpres
  refine ⟨hd, hv, ?_⟩
  unfold file_dialog
  rw [hv]
  simp

/-- Witness for the amended C3: a completed open pass, then a pass that
observed its version with no new request, which performs nothing. -/
theorem dialog_at_most_once_witness :
    postOpenWorld.dialog = openReqWorld.dialog ∧
    postOpenWorld.dialogVersion = openReqWorld.dialogVersion ∧
    file_dialog none (fun _ => Except.error "no file") (fun _ => Except.ok ())
      openReqWorld.dialogVersion postOpenWorld =
      RunResult.ok (postOpenWorld, []) :=
  dialog_at_most_once (some "square.off") none (fun _ => Except.ok square)
    (fun _ => Except.error "no file") (fun _ => Except.ok ())
    (fun _ => Except.ok ()) 0 openReqWorld postOpenWorld [] rfl

/-- The point about which a flattened slice is recentered — the
hyperplane-projected origin, written in the hyperplane's own coordinates —
is the origin of the lower-dimensional space. -/
theorem hyperplane_flatten_project_zeros (h : Hyperplane) (d : Nat) :
    h.flatten (h.project (Point.zeros d)) = Point.zeros (d - 1) := by
  cases d with
  | zero => rfl
  | succ n => rfl

/-- Claim C8: while active, the cross-section rule replaces the live shape
with the slice of the frozen snapshot taken at the committed position plus
the fixed epsilon `1/10^7`; with flattening requested it additionally
collapses the slice into the hyperplane's own subspace — one dimension
lower — and recenters it about the hyperplane-projected origin, which is
the origin of the flattened space.  A snapshot of dimension `d` therefore
resolves to dimension `d - 1` when flattened and `d` otherwise. -/
theorem update_cross_section_resolve (w : World) (o : Concrete)
    (mm : Float × Float) (hpos : Float) (fl : Bool) (d : Nat)
    (hs : w.sectionState = SectionState.Active o mm hpos fl)
    (hd : o.dim = some d) :
    (update_cross_section true w).shape =
      (if fl then
        ((o.slice (Hyperplane.x d (hpos + 1 / 10000000))).flatten_into
            (Hyperplane.x d (hpos + 1 / 10000000)).subspace).recenter_with
          (Point.zeros (d - 1))
      else o.slice (Hyperplane.x d (hpos + 1 / 10000000))) ∧
    (update_cross_section true w).shape.dim =
      some (if fl then d - 1 else d) := by
  unfold update_cross_section
  rw [hs]
  cases fl with
  | true =>
    simp [hd, Concrete.dim, hyperplane_flatten_project_zeros]
  | false =>
    simp [hd, Concrete.dim]

/-- Witness for C8: the tesseract snapshot (dimension 4) with flattening on
resolves to the slice collapsed one dimension lower — dimension 3 — and
recentered about the origin. -/
theorem update_cross_section_resolve_witness :
    (update_cross_section true tesseractSectionWorld).shape =
      ((tesseract.slice (Hyperplane.x 4 (1 / 2 + 1 / 10000000))).flatten_into
          (Hyperplane.x 4 (1 / 2 + 1 / 10000000)).subspace).recenter_with
        (Point.zeros 3) ∧
    (update_cross_section true tesseractSectionWorld).shape.dim = some 3 := by
  have h := update_cross_section_resolve tesseractSectionWorld tesseract (0, 1)
    (1 / 2) true 4 rfl rfl
  simpa using h

end Miratope
